import Mathlib

/-!
Shallow embedding of the wtachau/website React components and pages that the
verified claims concern: `SocialCTA` (src/shared/Home/SocialCTA.tsx),
`ShipInHours` (src/shared/Home/ShipInHours.tsx), the docs `Header`
(src/shared/Docs/Header.tsx), the Terms page (src/pages/terms.tsx), and the
front matter of the blog posts under src/pages/blog/_posts.

Rendered JSX is embedded as a tree of elements.  A child component whose own
source is not part of the embedding (icons, `Container`, `Button`,
`Search`, ...) appears as a leaf element carrying the props the caller passes
to it; the claims only concern the markup produced by the examined components
themselves.  Attribute values are `Option String`: `none` embeds the
JavaScript value `undefined` (e.g. a missing environment variable).
-/

namespace Website

/-- An embedded markup tree.  `el tag attrs styles children` is a JSX
element: `attrs` are its attributes (value `none` = `undefined`), `styles`
the numeric CSS custom properties bound through the `style` prop (only the
Header binds any), `children` its children.  `err` represents a thrown
rendering error; no component in the repository ever produces it, which is
exactly what the totality claim asserts. -/
inductive Markup where
  | text (s : String) : Markup
  | el (tag : String) (attrs : List (String × Option String))
      (styles : List (String × ℚ)) (children : List Markup) : Markup
  | err (msg : String) : Markup

/-- The process environment (`process.env`): a partial map from variable
names to string values, `none` embedding an unset variable. -/
def Env : Type := String → Option String

/-- Splits a character list at every occurrence of the separator (the
single-character case of JavaScript's `String.split`). -/
def splitChars (sep : Char) : List Char → List (List Char)
  | [] => [[]]
  | c :: rest =>
    match splitChars sep rest with
    | [] => [[c]]
    | g :: gs => if c == sep then [] :: g :: gs else (c :: g) :: gs

/-- Splits a string at every occurrence of a separator character. -/
def splitStr (sep : Char) (s : String) : List String :=
  (splitChars sep s.data).map (fun cs => String.mk cs)

/-- `true` when `p` is a prefix of `s` (JavaScript's `String.startsWith`). -/
def strStartsWith (s p : String) : Bool :=
  List.isPrefixOf p.data s.data

/-- The class tokens of a space-separated class string (how the DOM reads a
`className` attribute as a class list). -/
def classTokens (s : String) : List String :=
  (splitStr ' ' s).filter (fun t => t != "")

/-- The tag of an element node (`""` on text and error nodes). -/
def tagOf : Markup → String
  | .el t _ _ _ => t
  | _ => ""

/-- The value of attribute `n` on an element node: `some v` when the
attribute is present with a defined value, `none` otherwise. -/
def attrOf (n : String) : Markup → Option String
  | .el _ attrs _ _ => (attrs.lookup n).join
  | _ => none

/-- The children of an element node. -/
def childrenOf : Markup → List Markup
  | .el _ _ _ cs => cs
  | _ => []

/-- The styles bound on an element node through the `style` prop. -/
def stylesOf : Markup → List (String × ℚ)
  | .el _ _ sts _ => sts
  | _ => []

/-- The first immediate text child of an element (the label of a button or
anchor whose content is plain text). -/
def firstText : Markup → String
  | .el _ _ _ (.text s :: _) => s
  | _ => ""

mutual

/-- All element nodes of a markup tree, in document order. -/
def elems : Markup → List Markup
  | .text _ => []
  | .err _ => []
  | .el t a s cs => .el t a s cs :: elemsList cs

/-- All element nodes of a forest, in document order. -/
def elemsList : List Markup → List Markup
  | [] => []
  | m :: ms => elems m ++ elemsList ms

end

mutual

/-- `true` when no node of the tree is a thrown-error node. -/
def errFree : Markup → Bool
  | .text _ => true
  | .err _ => false
  | .el _ _ _ cs => errFreeList cs

/-- `true` when no node of the forest is a thrown-error node. -/
def errFreeList : List Markup → Bool
  | [] => true
  | m :: ms => errFree m && errFreeList ms

end

/-- The `(label, href)` pairs of the anchor elements of a tree. -/
def anchorsOf (m : Markup) : List (String × Option String) :=
  ((elems m).filter (fun e => tagOf e == "a")).map
    (fun e => (firstText e, attrOf "href" e))

/-- Embedding of `SocialCTA` (src/shared/Home/SocialCTA.tsx): the homepage
social call-to-action section with a Discord panel and a GitHub panel.  The
component reads no props and no ambient state; the `Env` argument records
that its output is independent of the process environment. -/
def socialCTARender (_env : Env) : Markup :=
  .el "div" [] [] [
    .el "Container"
      [("className", some "my-10 lg:mt-20 lg:mb-12 flex flex-col md:flex-row gap-8 lg:gap-12")] [] [
      .el "div" [("className", some "w-full lg:w-1/2 ")] [] [
        .el "div"
          [("className", some "bg-[#5765f2] rounded flex items-center justify-center  text-white h-[140px] lg:h-[200px]")] [] [
          .el "Discord" [("size", some "4em")] [] []],
        .el "h4" [("className", some "lg:px-8 mt-4 lg:mt-8 mb-2 text-lg text-white")] [] [
          .text "Join our Discord community"],
        .el "p" [("className", some "lg:px-8 text-slate-400 text-sm")] [] [
          .text "Join our Discord community to share feedback, get updates, and have a direct line to shaping the future of the SDK!"],
        .el "a"
          [("href", some "/docs?ref=homepage-hero"),
           ("className", some "lg:mx-6  mt-3 lg:mt-6 inline-flex rounded-full text-sm font-medium px-6 py-2 bg-slate-800 hover:bg-slate-700 transition-all text-white")] [] [
          .text "Join the community"]],
      .el "div" [("className", some "w-full lg:w-1/2")] [] [
        .el "div"
          [("className", some "bg-slate-800 rounded flex items-center justify-center  text-white h-[140px] lg:h-[200px]")] [] [
          .el "Github" [("size", some "4em")] [] []],
        .el "h4" [("className", some "lg:px-8 mt-4 lg:mt-8 mb-2 text-lg text-white")] [] [
          .text "Open Source"],
        .el "p" [("className", some "lg:px-8 text-slate-400 text-sm")] [] [
          .text "Inngest's core is open source, giving you piece of mind."],
        .el "a"
          [("href", some "/docs?ref=homepage-hero"),
           ("className", some "lg:mx-6  mt-3 lg:mt-6 inline-flex rounded-full text-sm font-medium px-6 py-2 bg-slate-800 hover:bg-slate-700 transition-all text-white")] [] [
          .text "View Project"]]]]

/-- Embedding of `ShipInHours` (src/shared/Home/ShipInHours.tsx): the
homepage section with the Inngest/without-Inngest comparison, feature blurbs
and the framework/platform logo anchors.  `SectionHeader` receives its
`title` span as an embedded child; the decorative blur divs carry only their
class strings.  The component reads no props and no ambient state; the `Env`
argument records that its output is independent of the process
environment. -/
def shipInHoursRender (_env : Env) : Markup :=
  .el "div" [("className", some "overflow-x-hidden pb-60 -mb-60")] [] [
    .el "div" [] [] [
      .el "Container" [("className", some "mt-6 mb-30 relative z-30")] [] [
        .el "SectionHeader"
          [("center", some "true"), ("pre", some "Built for every developer")] [] [
          .el "span"
            [("className", some "gap-2 items-end text-slate-200 font-medium text-2xl lg:text-4xl xl:text-5xl mb-4 tracking-tighter text-center")] [] [
            .text "Ship in hours, not months"]],
        .el "div" [("className", some "flex justify-center")] [] [
          .el "p" [("className", some "text-center max-w-md lg:max-w-xl mt-4 text-slate-200")] [] [
            .text "Build background jobs, scheduled jobs, and workflows by adding our SDK to your existing codebase and redeploying to your current platform.  Think in code without worrying about infra, queues, and config."]],
        .el "div"
          [("className", some "my-20 grid xl:grid-cols-3 grid-cols-1 lg:gap-20 py-20 xl:pl-20 px-6 bg-slate-900/70 backdrop-blur-sm rounded-xl")] [] [
          .el "div" [("className", some "flex flex-col justify-stretch items-center h-full")] [] [
            .el "div" [("className", some "text-center pb-20")] [] [
              .el "p" [("className", some "font-semibold text-xl mb-4")] [] [.text "With Inngest"],
              .el "p" [] [] [.text "Write and deploy workflows as functions — everything else is done for you."]],
            .el "div" [("className", some "flex items-center flex-1")] [] [
              .el "img"
                [("src", some "/assets/with-inngest.svg"), ("alt", some "With Inngest"),
                 ("className", some "lg:max-w-[210px] max-w-full")] [] []]],
          .el "div" [("className", some "col-span-2 flex flex-col items-center justify-center")] [] [
            .el "div" [("className", some "text-center max-w-[400px] m-auto pb-20")] [] [
              .el "p" [("className", some "font-semibold text-xl mb-4")] [] [.text "Without Inngest"],
              .el "p" [] [] [.text "Provision queues, handlers, and glue code for each job in a workflow, with everything handled manually."]],
            .el "img"
              [("src", some "/assets/without-inngest.svg"), ("alt", some "With Inngest"),
               ("className", some "lg:max-w-[540px] max-w-full")] [] []]],
        .el "div"
          [("className", some "w-screen max-w-screen relative md:-mt-20 lg:-mt-32 xl:-mt-[600px] xl:mb-[600px] z-20 opacity-50 pointer-events-none")] [] [
          .el "div" [("className", some " blur-3xl w-[200px] md:w-[400px] lg:w-[500px] h-[200px] md:h-[400px] lg:h-[500px] bg-sky-500/20 absolute rounded-full left-1/2 -translate-x-[20%] translate-y-[40%] ")] [] [],
          .el "div" [("className", some " blur-3xl w-[200px] md:w-[450px] lg:w-[550px] h-[200px] md:h-[450px] lg:h-[550px] bg-indigo-500/30 absolute rounded-full left-1/2 -translate-x-[100%] translate-y-[40%] ")] [] [],
          .el "div" [("className", some " blur-3xl w-[200px] md:w-[300px] lg:w-[400px] h-[200px] md:h-[300px] lg:h-[400px] bg-purple-500/30 absolute rounded-full left-1/2 translate-x-[50%] translate-y-[40%] ")] [] [],
          .el "div" [("className", some " blur-3xl w-[200px] md:w-[400px] lg:w-[500px] h-[200px] md:h-[400px] lg:h-[500px] bg-indigo-500/10 absolute rounded-full bottom-0 left-1/2 -translate-x-[20%] -translate-y-[62%] ")] [] [],
          .el "div" [("className", some " blur-3xl w-[200px] md:w-[400px] lg:w-[550px] h-[200px] md:h-[400px] lg:h-[550px] bg-purple-500/10 absolute rounded-full bottom-0 left-1/2 -translate-x-[100%] translate-y-[50%] ")] [] [],
          .el "div" [("className", some " blur-3xl w-[200px] md:w-[200px] lg:w-[400px] h-[200px] md:h-[200px] lg:h-[400px] bg-blue-500/10 absolute rounded-full bottom-0 left-1/2 translate-x-[50%] translate-y-[6%] ")] [] [],
          .el "div" [("className", some "overflow-x-hidden overflow-y-hidden w-screen")] [] []],
        .el "div"
          [("className", some "grid xl:grid-cols-3 xl:gap-20 gap-y-20 mb-20 lg:grid-cols-1 mt-20 xl:px-32")] [] [
          .el "div" [] [] [
            .el "h3" [("className", some "font-semibold text-xl mb-4")] [] [.text "Focus on functions"],
            .el "p" [("className", some "text-slate-200")] [] [
              .text "Develop faster by working only on your business logic.  We take care of the hard stuff for you, including retries, concurrency, throttling, rate limiting, and failure replay."]],
          .el "div" [] [] [
            .el "h3" [("className", some "font-semibold text-xl mb-4")] [] [.text "Simple and powerful primitives"],
            .el "p" [("className", some "text-slate-200")] [] [
              .text "Write long-running workflows without learning distributed systems with a single line of the SDK, on any platform – even serverless functions."]],
          .el "div" [] [] [
            .el "h3" [("className", some "font-semibold text-xl mb-4")] [] [.text "Any framework, any platform"],
            .el "p" [("className", some "text-slate-200")] [] [
              .text "Drop the SDK into your existing codebase and deploy to your current cloud, using your current CI/CD process."]]],
        .el "div" [("className", some "pt-12")] [] [
          .el "p" [("className", some "text-sm text-center text-gray-400")] [] [
            .text "Works with all the frameworks and platforms you already use:"]],
        .el "div"
          [("className", some "flex items-end lg:flex-row justify-evenly xl:justify-center w-full m-auto flex-wrap my-8")] [] [
          .el "a"
            [("href", some "/docs/sdk/serve?ref=homepage-fits-your-workflow#framework-next-js"),
             ("className", some "flex w-1/2 max-w-[140px] hover:scale-110 transition-all duration-150 opacity-50 hover:opacity-100")] [] [
            .el "img" [("className", some "max-w-[140px]"), ("src", some "/assets/homepage/send-events/next-js.png")] [] []],
          .el "a"
            [("href", some "/docs/sdk/serve?ref=homepage-fits-your-workflow#framework-express"),
             ("className", some "flex w-1/2 max-w-[140px] hover:scale-110 transition-all duration-150 opacity-50 hover:opacity-100")] [] [
            .el "img" [("className", some "max-w-[140px]"), ("src", some "/assets/homepage/send-events/express.png")] [] []],
          .el "a"
            [("href", some "/docs/sdk/serve?ref=homepage-fits-your-workflow#framework-redwood"),
             ("className", some "flex w-1/2 max-w-[140px] hover:scale-110 transition-all duration-150 opacity-50 hover:opacity-100")] [] [
            .el "img" [("className", some "max-w-[140px]"), ("src", some "/assets/homepage/send-events/redwood.png")] [] []],
          .el "a"
            [("href", some "/docs/deploy/vercel?ref=homepage-fits-your-workflow"),
             ("className", some "flex w-1/2 md:w-1/3 max-w-[140px] hover:scale-110 transition-all duration-150 opacity-50 hover:opacity-100")] [] [
            .el "img" [("className", some "max-w-[140px]"), ("src", some "/assets/homepage/send-events/vercel.png")] [] []],
          .el "a"
            [("href", some "/docs/deploy/netlify?ref=homepage-fits-your-workflow"),
             ("className", some "flex w-1/2 md:w-1/3 max-w-[140px] hover:scale-110 transition-all duration-150 opacity-50 hover:opacity-100")] [] [
            .el "img" [("className", some "max-w-[140px]"), ("src", some "/assets/homepage/send-events/netlify.png")] [] []],
          .el "a"
            [("href", some "/docs/deploy/cloudflare?ref=homepage-fits-your-workflow"),
             ("className", some "flex w-1/2 md:w-1/3 max-w-[140px] hover:scale-110 transition-all duration-150 opacity-50 hover:opacity-100")] [] [
            .el "img" [("className", some "max-w-[140px]"), ("src", some "/assets/homepage/send-events/cloudflare-pages.png")] [] []]]]]]

/-- The local UI state the docs `Header` reads: the window scroll position
(`useScroll().scrollY`, in pixels), whether the component renders inside the
mobile navigation panel (`useIsInsideMobileNavigation()`), and whether the
mobile navigation is open (`useMobileNavigationStore().isOpen`). -/
structure HeaderState where
  scrollY : ℚ
  isInsideMobileNavigation : Bool
  mobileNavIsOpen : Bool
deriving DecidableEq

/-- framer-motion's `useTransform(value, [inLo, inHi], [outLo, outHi])` for a
two-point range: linear interpolation from the input range onto the output
range, clamped to the endpoint outputs outside the input range (framer
motion's documented default `clamp: true`). -/
def transformClamped (inLo inHi outLo outHi s : ℚ) : ℚ :=
  if s ≤ inLo then outLo
  else if inHi ≤ s then outHi
  else outLo + (s - inLo) / (inHi - inLo) * (outHi - outLo)

/-- `bgOpacityLight = useTransform(scrollY, [0, 72], [0.5, 0.9])` in Header. -/
def bgOpacityLight (s : ℚ) : ℚ :=
  transformClamped 0 72 (1/2) (9/10) s

/-- `bgOpacityDark = useTransform(scrollY, [0, 72], [0.2, 0.8])` in Header. -/
def bgOpacityDark (s : ℚ) : ℚ :=
  transformClamped 0 72 (1/5) (4/5) s

/-- The unconditional second `clsx` argument of the Header root. -/
def headerFixedClasses : String :=
  "fixed inset-x-0 top-0 z-50 flex h-14 items-center justify-between gap-12 px-4 transition sm:px-6 lg:z-30 lg:px-8"

/-- The `clsx` argument guarded by `!isInsideMobileNavigation`. -/
def headerBlurClasses : String :=
  "backdrop-blur-sm dark:backdrop-blur lg:left-72 xl:left-80"

/-- The `isInsideMobileNavigation` branch of the Header root's ternary. -/
def headerInsideBgClasses : String :=
  "bg-white dark:bg-slate-900"

/-- The `!isInsideMobileNavigation` branch of the Header root's ternary. -/
def headerScrollBgClasses : String :=
  "bg-white/[var(--bg-opacity-light)] dark:bg-slate-950/[var(--bg-opacity-dark)]"

/-- The conditional classes of the Header's bottom hairline div. -/
def headerHairlineBgClasses : String :=
  "bg-slate-900/7.5 dark:bg-white/7.5"

/-- The class tokens the Header root contributes itself: the fixed layout
classes, then `!isInsideMobileNavigation && blur`, then the
`isInsideMobileNavigation ? insideBg : scrollBg` ternary, in `clsx` argument
order. -/
def rootOwnTokens (inside : Bool) : List String :=
  classTokens headerFixedClasses ++
    (if inside then [] else classTokens headerBlurClasses) ++
    (if inside then classTokens headerInsideBgClasses
     else classTokens headerScrollBgClasses)

/-- The class list of the Header's root `motion.div`, as `clsx(className,
fixed, !isInsideMobileNavigation && blur, isInsideMobileNavigation ? insideBg
: scrollBg)` assembles it (`clsx` keeps truthy arguments in order and joins
them with spaces, so the token list is the concatenation of the kept
arguments' token lists; an absent `className` prop contributes nothing). -/
def rootClassTokens (className : Option String) (inside : Bool) : List String :=
  classTokens (className.getD "") ++ rootOwnTokens inside

/-- The class list of the Header's bottom hairline div: `clsx("absolute
inset-x-0 top-full h-px transition", (isInsideMobileNavigation ||
!mobileNavIsOpen) && hairlineBg)`. -/
def hairlineClassTokens (inside navOpen : Bool) : List String :=
  classTokens "absolute inset-x-0 top-full h-px transition" ++
    (if inside || !navOpen then classTokens headerHairlineBgClasses else [])

/-- JavaScript string coercion of a possibly-undefined value, as a template
literal performs it: `undefined` prints as "undefined". -/
def jsString : Option String → String
  | some s => s
  | none => "undefined"

/-- The Header's "Sign In" `Button`:
`href={process.env.NEXT_PUBLIC_SIGNIN_URL}` is passed through unchanged. -/
def signInButton (env : Env) : Markup :=
  .el "Button"
    [("href", env "NEXT_PUBLIC_SIGNIN_URL"), ("size", some "sm"),
     ("variant", some "secondary")] [] [.text "Sign In"]

/-- The Header's "Sign Up" `Button`: its href is the template literal
appending "?ref=docs-header" to `process.env.NEXT_PUBLIC_SIGNUP_URL`. -/
def signUpButton (env : Env) : Markup :=
  .el "Button"
    [("href", some (jsString (env "NEXT_PUBLIC_SIGNUP_URL") ++ "?ref=docs-header")),
     ("size", some "sm"), ("arrow", some "right")] [] [.text "Sign Up"]

/-- Embedding of the docs `Header` (src/shared/Docs/Header.tsx).  Its inputs
are the optional `className` prop, the local UI state (scroll position, the
two navigation booleans) and the process environment; the root `motion.div`
binds the two scroll-derived opacities as CSS custom properties through its
`style` prop. -/
def headerRender (className : Option String) (st : HeaderState) (env : Env) : Markup :=
  .el "motion.div"
    [("className",
      some (String.intercalate " " (rootClassTokens className st.isInsideMobileNavigation)))]
    [("--bg-opacity-light", bgOpacityLight st.scrollY),
     ("--bg-opacity-dark", bgOpacityDark st.scrollY)] [
    .el "div"
      [("className",
        some (String.intercalate " "
          (hairlineClassTokens st.isInsideMobileNavigation st.mobileNavIsOpen)))] [] [],
    .el "Search" [] [] [],
    .el "div" [("className", some "flex items-center gap-5 lg:hidden")] [] [
      .el "MobileNavigation" [] [] [],
      .el "a" [("href", some "/docs"), ("className", some "flex gap-1.5 group/logo items-center pt-1")] [] [
        .el "Logo" [("className", some "w-20 text-indigo-500 dark:text-white")] [] [],
        .el "span"
          [("className", some "text-slate-700 dark:text-indigo-400 text-base group-hover/logo:text-white transition-color font-semibold")] [] [
          .text "Docs"]]],
    .el "div" [("className", some "flex items-center gap-5")] [] [
      .el "div" [("className", some "hidden lg:block mr-3")] [] [
        .el "SocialBadges" [] [] []],
      .el "div" [("className", some "hidden sm:flex items-center gap-3")] [] [
        signInButton env,
        signUpButton env],
      .el "div" [("className", some "hidden lg:block md:h-5 md:w-px md:bg-slate-900/10 md:dark:bg-white/15")] [] [],
      .el "div" [("className", some "flex gap-4")] [] [
        .el "MobileSearch" [] [] [],
        .el "ModeToggle" [] [] []]]]

/-- The `meta` object the Terms page's `getStaticProps` returns. -/
structure PageMeta where
  title : String
  description : String
deriving DecidableEq

/-- The `props` object the Terms page's `getStaticProps` returns. -/
structure TermsProps where
  designVersion : String
  meta : PageMeta
deriving DecidableEq

/-- The full `getStaticProps` result (`{ props: ... }`). -/
structure StaticPropsResult where
  props : TermsProps
deriving DecidableEq

/-- Embedding of `getStaticProps` of src/pages/terms.tsx. -/
def termsGetStaticProps (_ : Unit) : StaticPropsResult :=
  ⟨⟨"2", ⟨"Terms", "Inngest's terms and conditions"⟩⟩⟩

/-- Embedding of the `Terms` page component (src/pages/terms.tsx): it
renders `LegalPage` with a fixed `iframeURL`. -/
def termsRender (_env : Env) : Markup :=
  .el "LegalPage"
    [("iframeURL", some "https://www.iubenda.com/terms-and-conditions/26885259")] [] []

/-- The YAML front matter of a blog post under src/pages/blog/_posts: each
field is `some v` when the file's front-matter block defines it. -/
structure FrontMatter where
  heading : Option String
  subtitle : Option String
  image : Option String
  date : Option String
  author : Option String
  disableCTA : Option Bool
deriving DecidableEq

/-- Front matter of lifecycle-emails-with-resend.mdx. -/
def lifecycleEmailsFM : FrontMatter :=
  { heading := some "Sending customer lifecycle emails with Resend and Inngest"
    subtitle := some "How to Send Effective and Reliable Emails in your Next.js Applications with Resend & Inngest"
    image := some "/assets/blog/lifcycle-emails-resend/customer-lifecycle-emails-with-resend-inngest.png"
    date := some "2023-08-21"
    author := some "Joel Hooks"
    disableCTA := none }

/-- Front matter of run-nextjs-functions-in-the-background.mdx. -/
def runNextjsFM : FrontMatter :=
  { heading := some "Run Next.js functions in the background with events and schedules on Vercel and Netlify"
    subtitle := some "Learn how to use Next.js api functions and run them as you would a message queue or a cron job."
    image := some "/assets/blog/run-nextjs-functions-in-the-background/featured-image.jpg"
    date := some "2022-10-04"
    author := none
    disableCTA := none }

/-- Front matter of vercel-long-running-background-functions.mdx. -/
def vercelLongRunningFM : FrontMatter :=
  { heading := some "Long-running background functions on Vercel"
    subtitle := some "How to run business critical jobs for minutes, hours or days"
    image := some "/assets/blog/vercel-long-running-background-functions/featured-image.png"
    date := some "2023-03-31"
    author := some "Dan Farrelly"
    disableCTA := some true }

/-- The blog post files under src/pages/blog/_posts with their front
matter. -/
def blogPosts : List (String × FrontMatter) :=
  [("lifecycle-emails-with-resend.mdx", lifecycleEmailsFM),
   ("run-nextjs-functions-in-the-background.mdx", runNextjsFM),
   ("vercel-long-running-background-functions.mdx", vercelLongRunningFM)]

/-- The path part of an href: everything before the first "?". -/
def pathOf (href : String) : String :=
  (splitStr '?' href).headD ""

/-- The query string of an href: between the first "?" and the following
"#" (or the end). -/
def queryOf (href : String) : String :=
  (splitStr '#' (((splitStr '?' href).drop 1).headD "")).headD ""

/-- The `key=value` parameters of an href's query string. -/
def queryParams (href : String) : List String :=
  splitStr '&' (queryOf href)

/-- A framework/platform logo anchor of `ShipInHours`: an anchor whose child
is one of the logo images under /assets/homepage/send-events/. -/
def isLogoAnchor (m : Markup) : Bool :=
  tagOf m == "a" &&
    (childrenOf m).any (fun c =>
      tagOf c == "img" &&
        strStartsWith ((attrOf "src" c).getD "") "/assets/homepage/send-events/")

/-- The hrefs of the framework/platform logo anchors of `ShipInHours`, in
document order. -/
def logoAnchorHrefs (env : Env) : List String :=
  ((elems (shipInHoursRender env)).filter isLogoAnchor).filterMap (attrOf "href")

/-- The classes the claim about the Header's boolean UI states names as the
only ones allowed to change: the two background branches, the backdrop-blur
classes, and the hairline classes. -/
def claimedChangeableClasses : List String :=
  classTokens headerInsideBgClasses ++ classTokens headerScrollBgClasses ++
    ["backdrop-blur-sm", "dark:backdrop-blur"] ++
    classTokens headerHairlineBgClasses

/-- The classes that actually change with the Header's boolean UI states:
besides the claimed ones, the conditional blur argument also carries the
left-offset classes lg:left-72 and xl:left-80. -/
def changeableClasses : List String :=
  claimedChangeableClasses ++ ["lg:left-72", "xl:left-80"]

/-- C1: evaluating the embedded `SocialCTA`, both call-to-action anchors —
the Discord panel's "Join the community" and the GitHub panel's "View
Project" — carry href "/docs?ref=homepage-hero", a relative route within the
site that points neither at a Discord invite nor at a GitHub repository. -/
theorem socialCTA_anchors_are_internal_routes :
    ∀ env : Env,
      anchorsOf (socialCTARender env) =
        [("Join the community", some "/docs?ref=homepage-hero"),
         ("View Project", some "/docs?ref=homepage-hero")] ∧
      strStartsWith "/docs?ref=homepage-hero" "https://discord" = false ∧
      strStartsWith "/docs?ref=homepage-hero" "https://github.com" = false ∧
      strStartsWith "/docs?ref=homepage-hero" "/" = true ∧
      pathOf "/docs?ref=homepage-hero" = "/docs" :=
  fun _ => ⟨rfl, by decide, by decide, by decide, by decide⟩

/-- C2: the Header's rendered style binds exactly the two scroll-derived
opacities, and each is the clamped linear interpolation over the input range
[0, 72]: light maps onto [0.5, 0.9] and dark onto [0.2, 0.8], holding the
endpoint values outside the input range. -/
theorem header_scroll_opacity_interpolation :
    ∀ (className : Option String) (st : HeaderState) (env : Env),
      stylesOf (headerRender className st env) =
        [("--bg-opacity-light", bgOpacityLight st.scrollY),
         ("--bg-opacity-dark", bgOpacityDark st.scrollY)] ∧
      ∀ s : ℚ,
        (0 ≤ s → s ≤ 72 →
          bgOpacityLight s = 1/2 + s / 72 * (9/10 - 1/2) ∧
          bgOpacityDark s = 1/5 + s / 72 * (4/5 - 1/5)) ∧
        (s ≤ 0 → bgOpacityLight s = 1/2 ∧ bgOpacityDark s = 1/5) ∧
        (72 ≤ s → bgOpacityLight s = 9/10 ∧ bgOpacityDark s = 4/5) := by
  intro className st env
  refine ⟨rfl, ?_⟩
  intro s
  refine ⟨fun h0 h72 => ⟨?_, ?_⟩, fun h => ⟨?_, ?_⟩, fun h => ⟨?_, ?_⟩⟩ <;>
    simp only [bgOpacityLight, bgOpacityDark, transformClamped]
  · split_ifs with h1 h2
    · have hs : s = 0 := le_antisymm h1 h0
      subst hs; norm_num
    · have hs : s = 72 := le_antisymm h72 h2
      subst hs; norm_num
    · ring_nf
  · split_ifs with h1 h2
    · have hs : s = 0 := le_antisymm h1 h0
      subst hs; norm_num
    · have hs : s = 72 := le_antisymm h72 h2
      subst hs; norm_num
    · ring_nf
  · rw [if_pos h]
  · rw [if_pos h]
  · rw [if_neg (by linarith), if_pos h]
  · rw [if_neg (by linarith), if_pos h]

/-- Witness for C2 at concrete scroll positions 36 (the midpoint), -5 and
120 (past either end of the input range). -/
theorem header_scroll_opacity_interpolation_witness :
    bgOpacityLight 36 = 1/2 + 36 / 72 * (9/10 - 1/2) ∧
    bgOpacityDark 36 = 1/5 + 36 / 72 * (4/5 - 1/5) ∧
    bgOpacityLight (-5) = 1/2 ∧
    bgOpacityDark 120 = 4/5 :=
  ⟨(((header_scroll_opacity_interpolation none ⟨36, false, false⟩
        (fun _ => none)).2 36).1 (by norm_num) (by norm_num)).1,
   (((header_scroll_opacity_interpolation none ⟨36, false, false⟩
        (fun _ => none)).2 36).1 (by norm_num) (by norm_num)).2,
   (((header_scroll_opacity_interpolation none ⟨0, false, false⟩
        (fun _ => none)).2 (-5)).2.1 (by norm_num)).1,
   (((header_scroll_opacity_interpolation none ⟨0, false, false⟩
        (fun _ => none)).2 120).2.2 (by norm_num)).2⟩


/-- C3: for every environment defining both variables, the Header's "Sign
In" button href is NEXT_PUBLIC_SIGNIN_URL unchanged and its "Sign Up" button
href is NEXT_PUBLIC_SIGNUP_URL with "?ref=docs-header" appended; both
buttons are nodes of the rendered Header. -/
theorem header_auth_button_hrefs :
    ∀ (className : Option String) (st : HeaderState) (env : Env) (a b : String),
      env "NEXT_PUBLIC_SIGNIN_URL" = some a →
      env "NEXT_PUBLIC_SIGNUP_URL" = some b →
      attrOf "href" (signInButton env) = some a ∧
      attrOf "href" (signUpButton env) = some (b ++ "?ref=docs-header") ∧
      signInButton env ∈ elems (headerRender className st env) ∧
      signUpButton env ∈ elems (headerRender className st env) := by
  intro c st env a b h1 h2
  refine ⟨?_, ?_, ?_, ?_⟩
  · simp [signInButton, attrOf, h1, List.lookup]
  · simp [signUpButton, attrOf, h2, jsString, List.lookup]
  · simp [headerRender, elems, elemsList, signInButton, signUpButton]
  · simp [headerRender, elems, elemsList, signInButton, signUpButton]

/-- Witness for C3 at a concrete environment. -/
theorem header_auth_button_hrefs_witness :
    attrOf "href"
        (signInButton (fun k =>
          if k = "NEXT_PUBLIC_SIGNIN_URL" then some "https://app.inngest.com/login"
          else if k = "NEXT_PUBLIC_SIGNUP_URL" then some "https://app.inngest.com/sign-up"
          else none)) = some "https://app.inngest.com/login" ∧
    attrOf "href"
        (signUpButton (fun k =>
          if k = "NEXT_PUBLIC_SIGNIN_URL" then some "https://app.inngest.com/login"
          else if k = "NEXT_PUBLIC_SIGNUP_URL" then some "https://app.inngest.com/sign-up"
          else none)) = some ("https://app.inngest.com/sign-up" ++ "?ref=docs-header") := by
  have h := header_auth_button_hrefs none ⟨0, false, false⟩
    (fun k =>
      if k = "NEXT_PUBLIC_SIGNIN_URL" then some "https://app.inngest.com/login"
      else if k = "NEXT_PUBLIC_SIGNUP_URL" then some "https://app.inngest.com/sign-up"
      else none)
    "https://app.inngest.com/login" "https://app.inngest.com/sign-up" (by decide) (by decide)
  exact ⟨h.1, h.2.1⟩

/-- C4 (amended): every blog post under src/pages/blog/_posts defines
heading, subtitle, image and date; every post except
run-nextjs-functions-in-the-background.mdx also defines author. -/
theorem blog_posts_frontmatter_fields :
    ∀ p ∈ blogPosts,
      p.2.heading.isSome = true ∧ p.2.subtitle.isSome = true ∧
      p.2.image.isSome = true ∧ p.2.date.isSome = true ∧
      (p.1 ≠ "run-nextjs-functions-in-the-background.mdx" → p.2.author.isSome = true) := by
  decide

/-- Counterexample to C4 as stated: the post
run-nextjs-functions-in-the-background.mdx is one of the blog posts and its
front matter defines no author field. -/
theorem blog_post_without_author :
    ("run-nextjs-functions-in-the-background.mdx", runNextjsFM) ∈ blogPosts ∧
    runNextjsFM.author = none :=
  ⟨by decide, rfl⟩

/-- Witness for C4 (amended) at the lifecycle-emails-with-resend.mdx post. -/
theorem blog_posts_frontmatter_fields_witness :
    lifecycleEmailsFM.heading.isSome = true ∧ lifecycleEmailsFM.subtitle.isSome = true ∧
    lifecycleEmailsFM.image.isSome = true ∧ lifecycleEmailsFM.date.isSome = true ∧
    lifecycleEmailsFM.author.isSome = true := by
  have h := blog_posts_frontmatter_fields ("lifecycle-emails-with-resend.mdx", lifecycleEmailsFM)
    (by decide)
  exact ⟨h.1, h.2.1, h.2.2.1, h.2.2.2.1, h.2.2.2.2 (by decide)⟩

/-- C5: the Header root's class attribute is the assembled root class list
and the hairline div's class attribute is the assembled hairline class list;
the root list contains bg-white and dark:bg-slate-900 iff
isInsideMobileNavigation, contains the variable-opacity background classes
and the backdrop-blur classes iff not isInsideMobileNavigation, and the
hairline list contains its background classes iff isInsideMobileNavigation
or the mobile navigation is not open. -/
theorem header_conditional_classes :
    ∀ (inside navOpen : Bool) (s : ℚ) (env : Env) (c : Option String),
      attrOf "className" (headerRender c ⟨s, inside, navOpen⟩ env) =
        some (String.intercalate " " (rootClassTokens c inside)) ∧
      attrOf "className" ((childrenOf (headerRender c ⟨s, inside, navOpen⟩ env)).headD (.text "")) =
        some (String.intercalate " " (hairlineClassTokens inside navOpen)) ∧
      (("bg-white" ∈ rootClassTokens none inside ∧
        "dark:bg-slate-900" ∈ rootClassTokens none inside) ↔ inside = true) ∧
      (("bg-white/[var(--bg-opacity-light)]" ∈ rootClassTokens none inside ∧
        "dark:bg-slate-950/[var(--bg-opacity-dark)]" ∈ rootClassTokens none inside ∧
        "backdrop-blur-sm" ∈ rootClassTokens none inside ∧
        "dark:backdrop-blur" ∈ rootClassTokens none inside) ↔ inside = false) ∧
      (("bg-slate-900/7.5" ∈ hairlineClassTokens inside navOpen ∧
        "dark:bg-white/7.5" ∈ hairlineClassTokens inside navOpen) ↔
        (inside = true ∨ navOpen = false)) := by
  intro inside navOpen s env c
  refine ⟨rfl, rfl, ?_⟩
  revert inside navOpen
  decide


/-- C6: the Terms page renders `LegalPage` with iframeURL
https://www.iubenda.com/terms-and-conditions/26885259, and every invocation
of its `getStaticProps` returns designVersion "2" with meta title "Terms"
and description "Inngest's terms and conditions". -/
theorem terms_page_contract :
    ∀ (u : Unit) (env : Env),
      tagOf (termsRender env) = "LegalPage" ∧
      attrOf "iframeURL" (termsRender env) =
        some "https://www.iubenda.com/terms-and-conditions/26885259" ∧
      termsGetStaticProps u =
        ⟨⟨"2", ⟨"Terms", "Inngest's terms and conditions"⟩⟩⟩ :=
  fun _ _ => ⟨rfl, rfl, rfl⟩

/-- C7: for every className prop, Header state and environment, the three
embedded render functions are total and produce error-free markup: no branch
of the rendering computation is an error branch. -/
theorem render_functions_total :
    ∀ (className : Option String) (st : HeaderState) (env : Env),
      errFree (headerRender className st env) = true ∧
      errFree (socialCTARender env) = true ∧
      errFree (shipInHoursRender env) = true :=
  fun _ _ _ => ⟨rfl, rfl, rfl⟩

/-- Counterexample to C8 as stated: two Header runs with equal props (no
className) and equal local UI state (scroll 0, both navigation flags false)
but different values of the environment variable NEXT_PUBLIC_SIGNIN_URL
produce different markup, so the output depends on state beyond props and
local UI state. -/
theorem header_render_reads_environment :
    headerRender none ⟨0, false, false⟩
        (fun k => if k = "NEXT_PUBLIC_SIGNIN_URL" then some "https://a.example" else none) ≠
      headerRender none ⟨0, false, false⟩
        (fun k => if k = "NEXT_PUBLIC_SIGNIN_URL" then some "https://b.example" else none) :=
  fun h =>
    absurd (congrArg (fun m => (elems m).map (attrOf "href")) h) (by decide)

/-- C8 (amended): rendering is deterministic — SocialCTA and ShipInHours
produce identical markup regardless of the environment, and two Header runs
with equal props, equal local UI state and equal values of the two consumed
environment variables (NEXT_PUBLIC_SIGNIN_URL, NEXT_PUBLIC_SIGNUP_URL)
produce identical markup, whatever the rest of the environment holds. -/
theorem render_determinism :
    (∀ e1 e2 : Env, socialCTARender e1 = socialCTARender e2) ∧
    (∀ e1 e2 : Env, shipInHoursRender e1 = shipInHoursRender e2) ∧
    (∀ (className : Option String) (st : HeaderState) (e1 e2 : Env),
      e1 "NEXT_PUBLIC_SIGNIN_URL" = e2 "NEXT_PUBLIC_SIGNIN_URL" →
      e1 "NEXT_PUBLIC_SIGNUP_URL" = e2 "NEXT_PUBLIC_SIGNUP_URL" →
      headerRender className st e1 = headerRender className st e2) := by
  refine ⟨fun _ _ => rfl, fun _ _ => rfl, ?_⟩
  intro c st e1 e2 h1 h2
  simp only [headerRender, signInButton, signUpButton, h1, h2]

/-- Witness for C8 (amended): two concrete environments agreeing on the two
consumed variables but differing everywhere else yield identical Header
markup. -/
theorem render_determinism_witness :
    headerRender none ⟨0, false, false⟩
        (fun k =>
          if k = "NEXT_PUBLIC_SIGNIN_URL" then some "https://si.example"
          else if k = "NEXT_PUBLIC_SIGNUP_URL" then some "https://su.example"
          else some "noise") =
      headerRender none ⟨0, false, false⟩
        (fun k =>
          if k = "NEXT_PUBLIC_SIGNIN_URL" then some "https://si.example"
          else if k = "NEXT_PUBLIC_SIGNUP_URL" then some "https://su.example"
          else none) :=
  render_determinism.2.2 none ⟨0, false, false⟩ _ _ (by decide) (by decide)

/-- C9: the six framework/platform logo anchors of ShipInHours (Next.js,
Express, Redwood, Vercel, Netlify, Cloudflare) carry exactly the six listed
hrefs; each href's query string contains the parameter
ref=homepage-fits-your-workflow and each href's path is a route under
/docs/. -/
theorem ship_logo_anchors_target_docs :
    ∀ env : Env,
      logoAnchorHrefs env =
        ["/docs/sdk/serve?ref=homepage-fits-your-workflow#framework-next-js",
         "/docs/sdk/serve?ref=homepage-fits-your-workflow#framework-express",
         "/docs/sdk/serve?ref=homepage-fits-your-workflow#framework-redwood",
         "/docs/deploy/vercel?ref=homepage-fits-your-workflow",
         "/docs/deploy/netlify?ref=homepage-fits-your-workflow",
         "/docs/deploy/cloudflare?ref=homepage-fits-your-workflow"] ∧
      (logoAnchorHrefs env).all
        (fun h =>
          (queryParams h).contains "ref=homepage-fits-your-workflow" &&
            strStartsWith (pathOf h) "/docs/") = true :=
  fun _ => ⟨rfl, rfl⟩

/-- Counterexample to C10 as stated: flipping isInsideMobileNavigation from
false to true also removes the left-offset class lg:left-72 (and xl:left-80)
from the root class list, which is neither a background, a backdrop-blur nor
a hairline class, so the boolean states change more than the claim
allows. -/
theorem header_boolean_state_changes_offset_classes :
    "lg:left-72" ∈ rootClassTokens none false ∧
    "lg:left-72" ∉ rootClassTokens none true ∧
    "lg:left-72" ∉ claimedChangeableClasses ∧
    (rootClassTokens none false).filter (fun t => !(claimedChangeableClasses.contains t)) ≠
      (rootClassTokens none true).filter (fun t => !(claimedChangeableClasses.contains t)) := by
  decide

/-- C10 (amended): for every className and both boolean UI states, the
Header root's class list always contains the fixed layout classes and every
token of the caller-supplied className; changing the two boolean states
changes only the background, backdrop-blur, left-offset (lg:left-72,
xl:left-80) and hairline classes and nothing else in the class lists. -/
theorem header_frame_classes :
    ∀ (c : Option String) (i1 i2 n1 n2 : Bool),
      (∀ t ∈ classTokens headerFixedClasses, t ∈ rootClassTokens c i1) ∧
      (∀ t ∈ classTokens (c.getD ""), t ∈ rootClassTokens c i1) ∧
      (rootClassTokens c i1).filter (fun t => !(changeableClasses.contains t)) =
        (rootClassTokens c i2).filter (fun t => !(changeableClasses.contains t)) ∧
      (hairlineClassTokens i1 n1).filter (fun t => !(changeableClasses.contains t)) =
        (hairlineClassTokens i2 n2).filter (fun t => !(changeableClasses.contains t)) := by
  intro c i1 i2 n1 n2
  refine ⟨?_, ?_, ?_, ?_⟩
  · intro t ht
    simp only [rootClassTokens, rootOwnTokens, List.mem_append]
    tauto
  · intro t ht
    simp only [rootClassTokens, List.mem_append]
    exact Or.inl ht
  · have key : ∀ j1 j2 : Bool,
        (rootOwnTokens j1).filter (fun t => !(changeableClasses.contains t)) =
          (rootOwnTokens j2).filter (fun t => !(changeableClasses.contains t)) := by decide
    simp only [rootClassTokens, List.filter_append, key i1 i2]
  · have key2 : ∀ j1 m1 j2 m2 : Bool,
        (hairlineClassTokens j1 m1).filter (fun t => !(changeableClasses.contains t)) =
          (hairlineClassTokens j2 m2).filter (fun t => !(changeableClasses.contains t)) := by decide
    exact key2 i1 n1 i2 n2

/-- Witness for C10 (amended) at className "custom-class" and concrete
boolean states. -/
theorem header_frame_classes_witness :
    "fixed" ∈ rootClassTokens (some "custom-class") false ∧
    "custom-class" ∈ rootClassTokens (some "custom-class") false ∧
    (rootClassTokens (some "custom-class") false).filter
        (fun t => !(changeableClasses.contains t)) =
      (rootClassTokens (some "custom-class") true).filter
        (fun t => !(changeableClasses.contains t)) ∧
    (hairlineClassTokens false true).filter (fun t => !(changeableClasses.contains t)) =
      (hairlineClassTokens true false).filter (fun t => !(changeableClasses.contains t)) := by
  have h := header_frame_classes (some "custom-class") false true true false
  exact ⟨h.1 "fixed" (by decide), h.2.1 "custom-class" (by decide), h.2.2.1, h.2.2.2⟩

end Website
